import Mathlib

/-!
Verification of the patch-server client in `PyPoE/poe/patchserver.py`.

The Python source is shallowly embedded:

* text strings are lists of Unicode code points (`List Nat`);
* byte sequences are lists of byte values (`List Nat`);
* the network is an explicit environment: for the HTTP download path a
  function from the full request URL to the outcome of
  `urllib.request.urlopen`, and for the handshake the byte sequence
  returned by the single `sock.recv(1024)` call;
* the filesystem is an association list from paths to file contents;
* raised exceptions become explicit result constructors.

Every definition is translated from the functions of
`PyPoE/poe/patchserver.py` named in its doc comment.
-/

/-- Outcome of a `urllib.request.urlopen` call on one full URL
(`Patch.download_raw`, patchserver.py line 272): either a response object
carrying an HTTP status code and body bytes, or a raised `URLError`.
The boolean records whether `URLError.reason` is a `ConnectionRefusedError`
(the only property of the exception the source inspects); an
`HTTPError` such as a 404 is a `URLError` whose reason is not a
`ConnectionRefusedError`, i.e. `urlError false`. -/
inductive HttpOutcome where
  | response (code : Nat) (body : List Nat)
  | urlError (refused : Bool)
deriving DecidableEq

/-- Exceptions `Patch.download_raw` can raise: the `ValueError` built from a
non-200 status of a returned response (line 276), or a re-raised `URLError`
(line 282). -/
inductive DlRaise where
  | valueError (code : Nat)
  | urlError (refused : Bool)
deriving DecidableEq

/-- Result of `Patch.download_raw`: returned body bytes (line 277), the
implicit `None` returned when the `for` loop finishes without returning or
raising, or a raised exception. -/
inductive DlResult where
  | body (b : List Nat)
  | retNone
  | raise (e : DlRaise)
deriving DecidableEq

/-- The `for index, host in enumerate(hosts)` loop of `Patch.download_raw`
(patchserver.py lines 270-282), with `total` standing for `len(hosts)`.
For each host the full URL is `"%s%s" % (host, file_path)`.  A returned
response with code other than 200 raises `ValueError`, which is not caught
by the `except URLError` clause; a response with code 200 returns its body;
a `URLError` is re-raised when `not isinstance(reason, ConnectionRefusedError)
or not index < len(hosts)` holds, and otherwise the loop continues.  The
second component collects the full URLs actually attempted, in order. -/
def download_raw_loop (env : List Nat → HttpOutcome) (file_path : List Nat)
    (total : Nat) : List (List Nat) → Nat → DlResult × List (List Nat)
  | [], _ => (DlResult.retNone, [])
  | host :: rest, index =>
    let url := host ++ file_path
    match env url with
    | HttpOutcome.response code body =>
      if code ≠ 200 then (DlResult.raise (DlRaise.valueError code), [url])
      else (DlResult.body body, [url])
    | HttpOutcome.urlError refused =>
      if refused = false ∨ ¬ index < total then
        (DlResult.raise (DlRaise.urlError refused), [url])
      else
        let r := download_raw_loop env file_path total rest (index + 1)
        (r.1, url :: r.2)

/-- `Patch.download_raw` (patchserver.py lines 250-282):
`hosts = [self.patch_cdn_url, self.patch_url]` followed by the candidate
loop.  Returns the result together with the list of URLs attempted. -/
def download_raw (patch_cdn_url patch_url file_path : List Nat)
    (env : List Nat → HttpOutcome) : DlResult × List (List Nat) :=
  let hosts := [patch_cdn_url, patch_url]
  download_raw_loop env file_path hosts.length hosts 0

/-- An `OSError`, identified by its errno. -/
structure OSErr where
  errno : Nat
deriving DecidableEq

/-- Outcomes of the two socket operations performed by `Patch.__del__`:
the result of `sock.shutdown(socket.SHUT_RDWR)` and of `sock.close()`,
each either `ok` or a raised `OSError`. -/
structure TeardownEnv where
  shutdown_result : Except OSErr Unit
  close_result : Except OSErr Unit

/-- `Patch.__del__` (patchserver.py lines 154-167): reopen the socket from
`sock_fd`, then `try: sock.shutdown(...) except OSError: pass`, then
`try: sock.close() except OSError: raise`. -/
def patch_del (env : TeardownEnv) : Except OSErr Unit :=
  match env.shutdown_result with
  | Except.error _ =>
    match env.close_result with
    | Except.error e => Except.error e
    | Except.ok _ => Except.ok ()
  | Except.ok _ =>
    match env.close_result with
    | Except.error e => Except.error e
    | Except.ok _ => Except.ok ()

/-- A filesystem: an association list from file paths to file contents. -/
def Fs := List (List Nat × List Nat)

instance : DecidableEq Fs := by
  unfold Fs
  infer_instance

/-- Store contents under a path, replacing any existing entry. -/
def fsSet (path contents : List Nat) : Fs → Fs
  | [] => [(path, contents)]
  | (p, c) :: rest =>
    if p = path then (path, contents) :: rest else (p, c) :: fsSet path contents rest

/-- Look up the contents of a path. -/
def fsGet (path : List Nat) : Fs → Option (List Nat)
  | [] => none
  | (p, c) :: rest => if p = path then some c else fsGet path rest

/-- Python truthiness of an optional-string keyword argument with default
`None`: falsy when absent or the empty string (`if dst_dir:` in
`Patch.download`, line 236). -/
def pyTruthy : Option (List Nat) → Bool
  | none => false
  | some s => !s.isEmpty

/-- `os.path.join(a, b)` for one extra component, as `posixpath.join` does
it: if `b` starts with a separator the result is `b`; otherwise `b` is
appended to `a`, inserting a separator unless `a` is empty or already ends
with one (47 is the code point of the separator). -/
def os_path_join (a b : List Nat) : List Nat :=
  if b.head? = some 47 then b
  else if a = [] ∨ a.getLast? = some 47 then a ++ b
  else a ++ 47 :: b

/-- The head component of `os.path.split(p)` as `posixpath.split` computes
it: everything up to and including the last separator, with trailing
separators stripped unless the head is empty or consists only of
separators. -/
def os_path_split_head (p : List Nat) : List Nat :=
  let i := p.length - (p.reverse.takeWhile (· != 47)).length
  let head := p.take i
  if head ≠ [] ∧ ¬ head.all (· == 47) then
    (head.reverse.dropWhile (· == 47)).reverse
  else head

/-- Exceptions `Patch.download` can raise: the `ValueError` for neither
destination argument being set (line 241), the `FileNotFoundError` from
`os.makedirs` on an empty directory path (line 244), the `TypeError` from
`f.write(None)` when `download_raw` returned `None`, and the two exceptions
propagated out of `download_raw`. -/
inductive DlFileError where
  | valueErrorArgs
  | fileNotFound
  | valueErrorStatus (code : Nat)
  | urlErr (refused : Bool)
  | typeError
deriving DecidableEq

/-- Result of `Patch.download`: normal completion or a raised exception. -/
inductive DlFileResult where
  | ok
  | raise (e : DlFileError)
deriving DecidableEq

/-- Lift an exception escaping `download_raw` into `download`'s exceptions. -/
def liftRaise : DlRaise → DlFileError
  | DlRaise.valueError code => DlFileError.valueErrorStatus code
  | DlRaise.urlError refused => DlFileError.urlErr refused

/-- The tail of `Patch.download` after `write_path` is determined
(patchserver.py lines 243-248): `os.makedirs(os.path.split(write_path)[0],
exist_ok=True)` — modelled over an ideal filesystem where creating any
non-empty directory path succeeds, while `os.makedirs('')` raises
`FileNotFoundError` — then `open(write_path, mode='wb')`, which creates the
file or truncates an existing one to empty, and then
`f.write(self.download_raw(file_path))`, evaluated in that order.  Returns
the result, the final filesystem, and the list of URLs attempted. -/
def download_write (patch_cdn_url patch_url file_path write_path : List Nat)
    (fs : Fs) (env : List Nat → HttpOutcome) :
    DlFileResult × Fs × List (List Nat) :=
  if os_path_split_head write_path = [] then
    (DlFileResult.raise DlFileError.fileNotFound, fs, [])
  else
    let fs1 := fsSet write_path [] fs
    let r := download_raw patch_cdn_url patch_url file_path env
    match r.1 with
    | DlResult.body b => (DlFileResult.ok, fsSet write_path b fs1, r.2)
    | DlResult.retNone => (DlFileResult.raise DlFileError.typeError, fs1, r.2)
    | DlResult.raise e => (DlFileResult.raise (liftRaise e), fs1, r.2)

/-- `Patch.download` (patchserver.py lines 202-248): `if dst_dir:
write_path = os.path.join(dst_dir, file_path) elif dst_file: write_path =
dst_file else: raise ValueError(...)`, then directory creation, open and
write as in `download_write`. -/
def download (patch_cdn_url patch_url file_path : List Nat)
    (dst_dir dst_file : Option (List Nat)) (fs : Fs)
    (env : List Nat → HttpOutcome) : DlFileResult × Fs × List (List Nat) :=
  if pyTruthy dst_dir then
    download_write patch_cdn_url patch_url file_path
      (os_path_join (dst_dir.getD []) file_path) fs env
  else if pyTruthy dst_file then
    download_write patch_cdn_url patch_url file_path (dst_file.getD []) fs env
  else
    (DlFileResult.raise DlFileError.valueErrorArgs, fs, [])

/-- Little-endian pairing of bytes into 16-bit UTF-16 code units; fails
(Python `UnicodeDecodeError`, truncated data) on an odd byte count. -/
def utf16_units_le : List Nat → Option (List Nat)
  | [] => some []
  | [_] => none
  | b0 :: b1 :: rest => (utf16_units_le rest).map fun us => (b0 + 256 * b1) :: us

/-- Big-endian pairing of bytes into 16-bit UTF-16 code units, used after a
big-endian byte-order mark. -/
def utf16_units_be : List Nat → Option (List Nat)
  | [] => some []
  | [_] => none
  | b0 :: b1 :: rest => (utf16_units_be rest).map fun us => (256 * b0 + b1) :: us

/-- Combine UTF-16 code units into code points: a high surrogate must be
followed by a low surrogate, combined into one supplementary code point; a
lone surrogate fails (Python `UnicodeDecodeError`). -/
def combine_surrogates : List Nat → Option (List Nat)
  | [] => some []
  | u :: us =>
    if 55296 ≤ u ∧ u < 56320 then
      match us with
      | [] => none
      | l :: us2 =>
        if 56320 ≤ l ∧ l < 57344 then
          (combine_surrogates us2).map fun r =>
            (65536 + (u - 55296) * 1024 + (l - 56320)) :: r
        else none
    else if 56320 ≤ u ∧ u < 57344 then none
    else (combine_surrogates us).map fun r => u :: r

/-- Python `bytes.decode('utf-16')` on a little-endian platform (the byte
order CPython assumes when no byte-order mark is present): a leading mark
selects the byte order and is removed from the result; otherwise the data
is decoded little-endian. -/
def py_utf16_decode (bs : List Nat) : Option (List Nat) :=
  match bs with
  | b0 :: b1 :: rest =>
    if b0 = 255 ∧ b1 = 254 then (utf16_units_le rest).bind combine_surrogates
    else if b0 = 254 ∧ b1 = 255 then (utf16_units_be rest).bind combine_surrogates
    else (utf16_units_le (b0 :: b1 :: rest)).bind combine_surrogates
  | rest => (utf16_units_le rest).bind combine_surrogates

/-- UTF-16 code units encoding a list of Unicode scalar values: a basic
scalar yields one unit, a supplementary scalar a surrogate pair. -/
def utf16le_encode_units : List Nat → List Nat
  | [] => []
  | c :: cs =>
    if c < 65536 then c :: utf16le_encode_units cs
    else (55296 + (c - 65536) / 1024) :: (56320 + (c - 65536) % 1024) ::
      utf16le_encode_units cs

/-- Serialize 16-bit units to bytes, little-endian. -/
def units_to_bytes_le : List Nat → List Nat
  | [] => []
  | u :: us => u % 256 :: u / 256 :: units_to_bytes_le us

/-- UTF-16LE encoding (no byte-order mark) of a list of scalar values. -/
def py_utf16le_encode (s : List Nat) : List Nat :=
  units_to_bytes_le (utf16le_encode_units s)

/-- A valid Unicode string: scalar values only — within range and not
surrogates.  These are the strings Python can hold and encode. -/
def valid_scalars (s : List Nat) : Prop :=
  ∀ c ∈ s, c < 1114112 ∧ (c < 55296 ∨ 57344 ≤ c)

instance (s : List Nat) : Decidable (valid_scalars s) := by
  unfold valid_scalars
  infer_instance

/-- `io.BytesIO.read(n)`: up to `n` bytes from the front, plus the rest of
the stream. -/
def bio_read (n : Nat) (d : List Nat) : List Nat × List Nat :=
  (d.take n, d.drop n)

/-- `struct.unpack('B', bs)`: requires exactly one byte, `struct.error`
otherwise. -/
def struct_unpack_B : List Nat → Option Nat
  | [b] => some b
  | _ => none

/-- `struct.unpack('33s', bs)`: requires exactly 33 bytes, `struct.error`
otherwise. -/
def struct_unpack_33s (bs : List Nat) : Option (List Nat) :=
  if bs.length = 33 then some bs else none

/-- The exceptions that can abort the handshake parse: `struct.error` from
a short fixed-size read, or `UnicodeDecodeError` from a bad UTF-16 text. -/
inductive PyParseErr where
  | structError
  | unicodeDecodeError
deriving DecidableEq

/-- The two URL attributes of a `Patch` object; `none` means the attribute
was never assigned. -/
structure UrlState where
  patch_url : Option (List Nat) := none
  patch_cdn_url : Option (List Nat) := none
deriving DecidableEq

/-- Result of `Patch.update_patch_urls`: success (after which the socket is
detached into `sock_fd`), or an exception raised part way through, together
with the attributes that had already been assigned at that point. -/
inductive ParseResult where
  | ok (s : UrlState)
  | err (e : PyParseErr) (s : UrlState)
deriving DecidableEq

/-- `Patch.update_patch_urls` (patchserver.py lines 183-200) from the point
where the bytes of the single `sock.recv(1024)` call are wrapped in
`io.BytesIO` (connection set-up, `send`, and the final `sock.detach()` are
abstracted by taking the received bytes as the argument).  In source order:
`struct.unpack('B', data.read(1))` for the unknown byte,
`struct.unpack('33s', data.read(33))` for the blank field,
`struct.unpack('B', data.read(1))` for `url_length`,
`data.read(url_length*2).decode('utf-16')` assigned to `patch_url`,
`struct.unpack('B', data.read(1))` for the second blank,
`struct.unpack('B', data.read(1))` for `url2_length`, and
`data.read(url2_length*2).decode('utf-16')` assigned to `patch_cdn_url`. -/
def update_patch_urls (resp : List Nat) : ParseResult :=
  let r1 := bio_read 1 resp
  match struct_unpack_B r1.1 with
  | none => ParseResult.err PyParseErr.structError {}
  | some _ =>
    let r2 := bio_read 33 r1.2
    match struct_unpack_33s r2.1 with
    | none => ParseResult.err PyParseErr.structError {}
    | some _ =>
      let r3 := bio_read 1 r2.2
      match struct_unpack_B r3.1 with
      | none => ParseResult.err PyParseErr.structError {}
      | some url_length =>
        let r4 := bio_read (url_length * 2) r3.2
        match py_utf16_decode r4.1 with
        | none => ParseResult.err PyParseErr.unicodeDecodeError {}
        | some u1 =>
          let r5 := bio_read 1 r4.2
          match struct_unpack_B r5.1 with
          | none => ParseResult.err PyParseErr.structError { patch_url := some u1 }
          | some _ =>
            let r6 := bio_read 1 r5.2
            match struct_unpack_B r6.1 with
            | none => ParseResult.err PyParseErr.structError { patch_url := some u1 }
            | some url2_length =>
              let r7 := bio_read (url2_length * 2) r6.2
              match py_utf16_decode r7.1 with
              | none =>
                ParseResult.err PyParseErr.unicodeDecodeError { patch_url := some u1 }
              | some u2 =>
                ParseResult.ok { patch_url := some u1, patch_cdn_url := some u2 }

/-- A handshake response laid out exactly per the wire format: 1 unknown
byte, 33 blank bytes, the unit count of the first string, its UTF-16LE
bytes, 1 blank byte, the unit count of the second string, its UTF-16LE
bytes. -/
def buildResp (unk : Nat) (blank : List Nat) (b2 : Nat)
    (s1 s2 : List Nat) : List Nat :=
  unk :: (blank ++ ((utf16le_encode_units s1).length ::
    (py_utf16le_encode s1 ++ (b2 :: ((utf16le_encode_units s2).length ::
      py_utf16le_encode s2)))))

/-- Python `s.strip(chars)` from the left for the single char `'/'` (47):
drop the maximal leading run of separators. -/
def py_lstrip_slash (s : List Nat) : List Nat := s.dropWhile (· == 47)

/-- Python `s.strip(chars)` from the right for the single char `'/'` (47):
drop the maximal trailing run of separators. -/
def py_rstrip_slash (s : List Nat) : List Nat :=
  (s.reverse.dropWhile (· == 47)).reverse

/-- Python `s.strip('/')`: strip separators from both ends. -/
def py_strip_slashes (s : List Nat) : List Nat :=
  py_rstrip_slash (py_lstrip_slash s)

/-- Python `s.rsplit('/', maxsplit=1)[-1]`: the suffix after the last
separator, or the whole string when there is none. -/
def py_rsplit_last (s : List Nat) : List Nat :=
  (s.reverse.takeWhile (· != 47)).reverse

/-- `Patch.version` (patchserver.py line 297):
`self.patch_url.strip('/').rsplit('/', maxsplit=1)[-1]`.  A pure function of
the `patch_url` string; it performs no I/O and changes no state. -/
def patch_version (patch_url : List Nat) : List Nat :=
  py_rsplit_last (py_strip_slashes patch_url)

/-- The attributes of a constructed `Patch` object: the master address set
by `__init__`, the two URLs and the detached socket descriptor set by
`update_patch_urls`. -/
structure PatchState where
  master_server : List Nat × Nat
  patch_url : List Nat
  patch_cdn_url : List Nat
  sock_fd : Nat
deriving DecidableEq

/-- The method `Patch.download_raw` over the object state: the body reads
only `self.patch_cdn_url` and `self.patch_url`, contains no assignment to
`self` and no operation on `sock_fd` or the master address, so the state
passes through unchanged. -/
def download_raw_st (s : PatchState) (file_path : List Nat)
    (env : List Nat → HttpOutcome) :
    (DlResult × List (List Nat)) × PatchState :=
  (download_raw s.patch_cdn_url s.patch_url file_path env, s)

/-- The method `Patch.download` over the object state: like
`download_raw_st`, the body performs filesystem and HTTP work only and
never assigns to `self` or touches the handshake socket. -/
def download_st (s : PatchState) (file_path : List Nat)
    (dst_dir dst_file : Option (List Nat)) (fs : Fs)
    (env : List Nat → HttpOutcome) :
    (DlFileResult × Fs × List (List Nat)) × PatchState :=
  (download s.patch_cdn_url s.patch_url file_path dst_dir dst_file fs env, s)

/-- Taking while a predicate holds of every element keeps the whole list. -/
theorem pw_takeWhile_all {α} (p : α → Bool) :
    ∀ l : List α, (∀ x ∈ l, p x = true) → l.takeWhile p = l := by
  intro l
  induction l with
  | nil => intro _; rfl
  | cons a t ih =>
    intro h
    have ha := h a (List.mem_cons_self a t)
    simp [List.takeWhile_cons, ha, ih fun x hx => h x (List.mem_cons_of_mem a hx)]

/-- Looking up a path just stored finds the stored contents. -/
theorem fsGet_fsSet (path c : List Nat) (fs : Fs) :
    fsGet path (fsSet path c fs) = some c := by
  induction fs with
  | nil => simp [fsSet, fsGet]
  | cons hd tl ih =>
    obtain ⟨q, d⟩ := hd
    by_cases h : q = path
    · simp [fsSet, fsGet, h]
    · simp [fsSet, fsGet, h, ih]

/-- If every fetch outcome is a failure, the tail of `Patch.download` leaves
the destination as an empty file (it was opened and truncated before the
fetch) and raises. -/
theorem download_write_fail (cdn purl fp wp : List Nat) (fs : Fs)
    (env : List Nat → HttpOutcome)
    (hdir : os_path_split_head wp ≠ [])
    (hfail : ∀ b, (download_raw cdn purl fp env).1 ≠ DlResult.body b) :
    (download_write cdn purl fp wp fs env).2.1 = fsSet wp [] fs ∧
    ∃ e, (download_write cdn purl fp wp fs env).1 = DlFileResult.raise e := by
  unfold download_write
  rw [if_neg hdir]
  rcases hr : (download_raw cdn purl fp env).1 with b | _ | e
  · exact absurd hr (hfail b)
  · simp [hr]
  · simp [hr]

/-- C8: in `Patch.__del__`, an `OSError` raised by the orderly shutdown of
the connection is suppressed, while a failure of `sock.close()` is surfaced:
the outcome of the teardown equals the outcome of the close operation,
whatever the shutdown operation did. -/
theorem C8_theorem : ∀ env : TeardownEnv, patch_del env = env.close_result := by
  intro env
  obtain ⟨sr, cr⟩ := env
  cases sr <;> cases cr <;> rfl

/-- C2, failing input: when both the CDN URL and the master URL fail with a
refused connection, `Patch.download_raw` does not raise: the guard
`not index < len(hosts)` is always false (enumerate yields `index <
len(hosts)`), so the `URLError` of the last candidate is swallowed, the loop
is exhausted, and the function returns `None` — here with
`patch_cdn_url = [99]`, `patch_url = [109]`, `file_path = [102]`, both
candidate URLs attempted.  The claim (and the source's own docstring, which
promises returned bytes) says the failure is surfaced by raising. -/
theorem C2_theorem :
    download_raw [99] [109] [102] (fun _ => HttpOutcome.urlError true) =
      (DlResult.retNone, [[99, 102], [109, 102]]) := by
  decide

/-- C6: if the first candidate (`patch_cdn_url ++ file_path`) responds with
HTTP status exactly 200, `Patch.download_raw` returns its body with no
further candidate attempted; and if the first candidate fails with a refused
connection while the second (`patch_url ++ file_path`) responds 200, the
second candidate's body is returned without raising. -/
theorem C6_theorem (cdn purl fp b : List Nat) (env : List Nat → HttpOutcome) :
    (env (cdn ++ fp) = HttpOutcome.response 200 b →
      download_raw cdn purl fp env = (DlResult.body b, [cdn ++ fp])) ∧
    (env (cdn ++ fp) = HttpOutcome.urlError true →
      env (purl ++ fp) = HttpOutcome.response 200 b →
      download_raw cdn purl fp env =
        (DlResult.body b, [cdn ++ fp, purl ++ fp])) := by
  constructor
  · intro h
    simp [download_raw, download_raw_loop, h]
  · intro h1 h2
    simp [download_raw, download_raw_loop, h1, h2]

/-- C6 witness: concrete environment where the CDN URL `[99, 102]` refuses
the connection and every other URL responds 200 with body `[5]`. -/
theorem C6_witness :
    download_raw [99] [109] [102]
      (fun u => if u = [99, 102] then HttpOutcome.urlError true
                else HttpOutcome.response 200 [5]) =
      (DlResult.body [5], [[99, 102], [109, 102]]) :=
  (C6_theorem [99] [109] [102] [5]
    (fun u => if u = [99, 102] then HttpOutcome.urlError true
              else HttpOutcome.response 200 [5])).2 (by decide) (by decide)

/-- C3, counterexample: `Patch.download` called with both `dst_dir` and
`dst_file` set (here `dst_dir = [100]`, `dst_file = [102]`) does not raise
the claimed `ValueError`: the `if dst_dir:` branch silently wins, the file
is written under `dst_dir`, and a network request is made (nonempty attempt
list) — the claim says providing both raises a `UsageError` before any
network I/O. -/
theorem C3_counterexample :
    pyTruthy (some [100]) = true ∧ pyTruthy (some [102]) = true ∧
    download [99] [109] [120] (some [100]) (some [102]) []
        (fun _ => HttpOutcome.response 200 [7]) =
      (DlFileResult.ok, [([100, 47, 120], [7])], [[99, 120]]) ∧
    DlFileResult.ok ≠ DlFileResult.raise DlFileError.valueErrorArgs := by
  decide

/-- C3, amended: providing neither destination argument (or only falsy,
empty ones) raises `ValueError` before any network I/O and without touching
the filesystem; providing both does not raise — `dst_dir` takes precedence
and the call behaves exactly as if `dst_file` had not been given. -/
theorem C3_theorem (cdn purl fp : List Nat) (dd df : Option (List Nat))
    (fs : Fs) (env : List Nat → HttpOutcome) :
    (pyTruthy dd = false → pyTruthy df = false →
      download cdn purl fp dd df fs env =
        (DlFileResult.raise DlFileError.valueErrorArgs, fs, [])) ∧
    (pyTruthy dd = true →
      download cdn purl fp dd df fs env = download cdn purl fp dd none fs env) := by
  constructor
  · intro h1 h2
    simp [download, h1, h2]
  · intro h
    simp [download, h]

/-- C3 witness: with neither argument given, `Patch.download` raises the
`ValueError` with the filesystem untouched and no URL attempted. -/
theorem C3_witness :
    download [99] [109] [120] none none []
        (fun _ => HttpOutcome.response 200 [7]) =
      (DlFileResult.raise DlFileError.valueErrorArgs, [], []) :=
  (C3_theorem [99] [109] [120] none none []
    (fun _ => HttpOutcome.response 200 [7])).1 rfl rfl

/-- C4, counterexample: the destination `[100, 47, 102]` holds `[1, 2]`
before the call; the fetch fails (a `URLError` that is not a refused
connection), yet afterwards the destination still exists and was truncated
to the empty file — `open(write_path, 'wb')` runs before the fetch.  The
claim says the destination is left absent or unchanged. -/
theorem C4_counterexample :
    download [99] [109] [120] none (some [100, 47, 102])
        [([100, 47, 102], [1, 2])] (fun _ => HttpOutcome.urlError false) =
      (DlFileResult.raise (DlFileError.urlErr false),
        [([100, 47, 102], [])], [[99, 120]]) ∧
    fsGet [100, 47, 102] [([100, 47, 102], [1, 2])] = some [1, 2] ∧
    fsGet [100, 47, 102] [([100, 47, 102], [])] = some [] ∧
    ([] : List Nat) ≠ [1, 2] := by
  decide

/-- C4, amended: when `Patch.download` is called with `dst_file` and the
fetch fails in any way (no body is returned), the call raises, and the
destination file is left committed as an empty file: the destination is
created or truncated before the fetch, so its prior contents are destroyed. -/
theorem C4_theorem (cdn purl fp df : List Nat) (fs : Fs)
    (env : List Nat → HttpOutcome)
    (hdf : df ≠ []) (hdir : os_path_split_head df ≠ [])
    (hfail : ∀ b, (download_raw cdn purl fp env).1 ≠ DlResult.body b) :
    (download cdn purl fp none (some df) fs env).2.1 = fsSet df [] fs ∧
    fsGet df (download cdn purl fp none (some df) fs env).2.1 = some [] ∧
    ∃ e, (download cdn purl fp none (some df) fs env).1 = DlFileResult.raise e := by
  have ht : pyTruthy (some df) = true := by
    cases df with
    | nil => exact absurd rfl hdf
    | cons a t => rfl
  have hd : download cdn purl fp none (some df) fs env =
      download_write cdn purl fp df fs env := by
    simp [download, pyTruthy, ht, hdf]
  rw [hd]
  obtain ⟨h1, h2⟩ := download_write_fail cdn purl fp df fs env hdir hfail
  exact ⟨h1, by rw [h1]; exact fsGet_fsSet df [] fs, h2⟩

/-- C4 witness: concrete failing fetch via `dst_file`, applying the amended
theorem at the counterexample's input. -/
theorem C4_witness :
    (download [99] [109] [120] none (some [100, 47, 102]) []
        (fun _ => HttpOutcome.urlError false)).2.1 = fsSet [100, 47, 102] [] [] ∧
    fsGet [100, 47, 102] (download [99] [109] [120] none (some [100, 47, 102]) []
        (fun _ => HttpOutcome.urlError false)).2.1 = some [] ∧
    ∃ e, (download [99] [109] [120] none (some [100, 47, 102]) []
        (fun _ => HttpOutcome.urlError false)).1 = DlFileResult.raise e :=
  C4_theorem [99] [109] [120] [100, 47, 102] []
    (fun _ => HttpOutcome.urlError false) (by decide) (by decide)
    (by intro b h; simp [download_raw, download_raw_loop] at h)

/-- C10: calling `Patch.download` with `dst_file` a bare nonempty filename
containing no separator (and `dst_dir` unset) raises `FileNotFoundError`
from `os.makedirs` on the empty directory component, before any network
request (empty attempt list) and before any file is written (filesystem
unchanged). -/
theorem C10_theorem (cdn purl fp df : List Nat) (fs : Fs)
    (env : List Nat → HttpOutcome) (h1 : df ≠ []) (h2 : 47 ∉ df) :
    download cdn purl fp none (some df) fs env =
      (DlFileResult.raise DlFileError.fileNotFound, fs, []) := by
  have ht : pyTruthy (some df) = true := by
    cases df with
    | nil => exact absurd rfl h1
    | cons a t => rfl
  have hall : df.reverse.takeWhile (· != 47) = df.reverse := by
    apply pw_takeWhile_all
    intro x hx
    have hmem : x ∈ df := List.mem_reverse.mp hx
    have hxne : x ≠ 47 := fun hEq => h2 (hEq ▸ hmem)
    simp [hxne]
  have hsplit : os_path_split_head df = [] := by
    unfold os_path_split_head
    rw [hall, List.length_reverse]
    simp
  simp [download, pyTruthy, ht, h1, download_write, hsplit]

/-- C10 witness: downloading to the bare filename `[102, 46, 116]` raises
`FileNotFoundError` with nothing written and no URL attempted. -/
theorem C10_witness :
    download [99] [109] [120] none (some [102, 46, 116]) []
        (fun _ => HttpOutcome.response 200 [1]) =
      (DlFileResult.raise DlFileError.fileNotFound, [], []) :=
  C10_theorem [99] [109] [120] [102, 46, 116] []
    (fun _ => HttpOutcome.response 200 [1]) (by decide) (by decide)

/-- Dropping while a predicate fails at the head keeps the list. -/
theorem pw_dropWhile_cons_neg {α} (p : α → Bool) (a : α) (l : List α)
    (h : p a = false) : (a :: l).dropWhile p = a :: l := by
  simp [List.dropWhile, h]

/-- Taking while a predicate fails at the head yields the empty list. -/
theorem pw_takeWhile_cons_neg {α} (p : α → Bool) (a : α) (l : List α)
    (h : p a = false) : (a :: l).takeWhile p = [] := by
  simp [List.takeWhile, h]

/-- Taking across an append whose first part wholly satisfies the
predicate. -/
theorem pw_takeWhile_append {α} (p : α → Bool) (l₁ l₂ : List α)
    (h : ∀ x ∈ l₁, p x = true) :
    (l₁ ++ l₂).takeWhile p = l₁ ++ l₂.takeWhile p := by
  induction l₁ with
  | nil => simp
  | cons a t ih =>
    have ha := h a (List.mem_cons_self a t)
    simp [List.takeWhile_cons, ha,
      ih fun x hx => h x (List.mem_cons_of_mem a hx)]

/-- Dropping across an append whose first part wholly satisfies the
predicate. -/
theorem pw_dropWhile_append_all {α} (p : α → Bool) (l₁ l₂ : List α)
    (h : ∀ x ∈ l₁, p x = true) :
    (l₁ ++ l₂).dropWhile p = l₂.dropWhile p := by
  induction l₁ with
  | nil => simp
  | cons a t ih =>
    have ha := h a (List.mem_cons_self a t)
    simp [List.dropWhile_cons, ha,
      ih fun x hx => h x (List.mem_cons_of_mem a hx)]

/-- Dropping across an append stops inside the first part when that part
does not vanish under the drop. -/
theorem pw_dropWhile_append_ne {α} (p : α → Bool) (l₁ l₂ : List α)
    (h : l₁.dropWhile p ≠ []) :
    (l₁ ++ l₂).dropWhile p = l₁.dropWhile p ++ l₂ := by
  induction l₁ with
  | nil => exact absurd rfl h
  | cons a t ih =>
    cases hpa : p a with
    | true =>
      have h' : t.dropWhile p ≠ [] := by
        intro hc
        exact h (by simp [List.dropWhile_cons, hpa, hc])
      simp [List.dropWhile_cons, hpa, ih h']
    | false => simp [List.dropWhile_cons, hpa]

/-- A list whose drop vanishes satisfies the predicate everywhere. -/
theorem pw_dropWhile_nil_all {α} (p : α → Bool) :
    ∀ l : List α, l.dropWhile p = [] → ∀ x ∈ l, p x = true := by
  intro l
  induction l with
  | nil => intro _ x hx; exact absurd hx (List.not_mem_nil x)
  | cons a t ih =>
    intro h x hx
    cases hpa : p a with
    | true =>
      rcases List.mem_cons.mp hx with hxa | hxt
      · rw [hxa]; exact hpa
      · exact ih (by simpa [List.dropWhile_cons, hpa] using h) x hxt
    | false =>
      exact absurd h (by simp [List.dropWhile_cons, hpa])

/-- The last-segment split of a string of the form `q ++ [47] ++ v` with
separator-free `v` is `v`. -/
theorem pw_rsplit_after_sep (q v : List Nat) (hv : ∀ x ∈ v, x ≠ 47) :
    py_rsplit_last ((q ++ [47]) ++ v) = v := by
  unfold py_rsplit_last
  have hq : (q ++ [47]).reverse = 47 :: q.reverse := by simp
  have hall : ∀ x ∈ v.reverse, ((x != 47) : Bool) = true := by
    intro x hx
    simp [hv x (List.mem_reverse.mp hx)]
  have h47 : (((47 : Nat) != 47) : Bool) = false := by simp
  rw [List.reverse_append, hq, pw_takeWhile_append _ _ _ hall,
    pw_takeWhile_cons_neg (fun x => x != 47) 47 q.reverse h47,
    List.append_nil, List.reverse_reverse]

/-- The last-segment split of a separator-free string is the string. -/
theorem pw_rsplit_no_sep (v : List Nat) (hv : ∀ x ∈ v, x ≠ 47) :
    py_rsplit_last v = v := by
  unfold py_rsplit_last
  rw [pw_takeWhile_all _ _ (by
      intro x hx
      simp [hv x (List.mem_reverse.mp hx)]),
    List.reverse_reverse]

/-- Right-stripping removes a trailing separator. -/
theorem pw_rstrip_snoc (X : List Nat) :
    py_rstrip_slash (X ++ [47]) = py_rstrip_slash X := by
  unfold py_rstrip_slash
  rw [List.reverse_append]
  simp [List.dropWhile_cons]

/-- Right-stripping keeps a string that ends in a nonempty separator-free
part. -/
theorem pw_rstrip_keep (q v : List Nat) (hne : v ≠ [])
    (hv : ∀ x ∈ v, x ≠ 47) : py_rstrip_slash (q ++ v) = q ++ v := by
  obtain ⟨d, t, hd⟩ : ∃ d t, v.reverse = d :: t := by
    cases hr : v.reverse with
    | nil => exact absurd (List.reverse_eq_nil_iff.mp hr) hne
    | cons d t => exact ⟨d, t, rfl⟩
  have hdv : d ∈ v := List.mem_reverse.mp (by rw [hd]; exact List.mem_cons_self d t)
  have hdne : ((d == 47) : Bool) = false := by simp [hv d hdv]
  unfold py_rstrip_slash
  rw [List.reverse_append, hd, List.cons_append,
    pw_dropWhile_cons_neg (fun x => x == 47) d (t ++ q.reverse) hdne,
    ← List.cons_append, ← hd, ← List.reverse_append, List.reverse_reverse]

/-- C7: for every `patch_url` of the form `prefix ++ [47] ++ version ++
[47]` with `version` nonempty and separator-free, `Patch.version` returns
exactly `version`; the embedding `patch_version` is a pure string function
with no I/O and no access to any other session state. -/
theorem C7_theorem (p v : List Nat) (hv : v ≠ []) (h47 : 47 ∉ v) :
    patch_version (p ++ 47 :: (v ++ [47])) = v := by
  have hvne : ∀ x ∈ v, x ≠ 47 := fun x hx hEq => h47 (hEq ▸ hx)
  unfold patch_version py_strip_slashes
  by_cases hp : p.dropWhile (· == 47) = []
  · have hall : ∀ x ∈ p, ((x == 47) : Bool) = true := pw_dropWhile_nil_all _ p hp
    have hl : py_lstrip_slash (p ++ 47 :: (v ++ [47])) = v ++ [47] := by
      unfold py_lstrip_slash
      rw [pw_dropWhile_append_all _ _ _ hall]
      obtain ⟨c, t, hc⟩ : ∃ c t, v = c :: t := by
        cases v with
        | nil => exact absurd rfl hv
        | cons c t => exact ⟨c, t, rfl⟩
      have hcmem : c ∈ v := by rw [hc]; exact List.mem_cons_self c t
      have hc47 : c ≠ 47 := hvne c hcmem
      have hcne : ((c == 47) : Bool) = false := by simp [hc47]
      rw [hc, List.cons_append]
      have hstep : List.dropWhile (fun x => x == 47) (47 :: (c :: (t ++ [47]))) =
          List.dropWhile (fun x => x == 47) (c :: (t ++ [47])) := by
        simp [List.dropWhile_cons]
      rw [hstep, pw_dropWhile_cons_neg (fun x => x == 47) c (t ++ [47]) hcne]
    rw [hl, pw_rstrip_snoc,
      show py_rstrip_slash v = v by
        have := pw_rstrip_keep [] v hv hvne
        simpa using this]
    exact pw_rsplit_no_sep v hvne
  · have hl : py_lstrip_slash (p ++ 47 :: (v ++ [47])) =
        p.dropWhile (· == 47) ++ 47 :: (v ++ [47]) :=
      pw_dropWhile_append_ne _ _ _ hp
    rw [hl,
      show p.dropWhile (· == 47) ++ 47 :: (v ++ [47]) =
        ((p.dropWhile (· == 47) ++ [47]) ++ v) ++ [47] by simp,
      pw_rstrip_snoc, pw_rstrip_keep _ v hv hvne]
    exact pw_rsplit_after_sep _ v hvne

/-- C7 witness: `patch_version` of the concrete url `[104, 47, 51, 47]`
(a one-char prefix, the version `[51]`, a trailing separator) is `[51]`. -/
theorem C7_witness : patch_version [104, 47, 51, 47] = [51] :=
  C7_theorem [104] [51] (by decide) (by decide)


/-- Taking exactly the length of the first part of an append yields it. -/
theorem pw_take_len_append {α} (l₁ l₂ : List α) :
    (l₁ ++ l₂).take l₁.length = l₁ := by
  induction l₁ with
  | nil => simp
  | cons a t ih => simp [ih]

/-- Dropping exactly the length of the first part of an append yields the
second part. -/
theorem pw_drop_len_append {α} (l₁ l₂ : List α) :
    (l₁ ++ l₂).drop l₁.length = l₂ := by
  induction l₁ with
  | nil => simp
  | cons a t ih => simp [ih]

/-- `pw_take_len_append` with the length given as a hypothesis. -/
theorem pw_take_eq {α} (n : Nat) (l₁ l₂ : List α) (h : l₁.length = n) :
    (l₁ ++ l₂).take n = l₁ := by
  rw [← h]
  exact pw_take_len_append l₁ l₂

/-- `pw_drop_len_append` with the length given as a hypothesis. -/
theorem pw_drop_eq {α} (n : Nat) (l₁ l₂ : List α) (h : l₁.length = n) :
    (l₁ ++ l₂).drop n = l₂ := by
  rw [← h]
  exact pw_drop_len_append l₁ l₂

/-- Little-endian byte pairing undoes little-endian serialization. -/
theorem utf16_units_of_bytes (us : List Nat) :
    utf16_units_le (units_to_bytes_le us) = some us := by
  induction us with
  | nil => rfl
  | cons u t ih =>
    have harith : u % 256 + 256 * (u / 256) = u := Nat.mod_add_div u 256
    simp [units_to_bytes_le, utf16_units_le, ih, harith]

/-- The serialized form of a unit list is twice as long. -/
theorem utf16_bytes_len (us : List Nat) :
    (units_to_bytes_le us).length = us.length * 2 := by
  induction us with
  | nil => rfl
  | cons u t ih =>
    simp [units_to_bytes_le, ih]
    omega

/-- The byte length of an encoded string is twice its unit count. -/
theorem py_utf16le_encode_len (s : List Nat) :
    (py_utf16le_encode s).length = (utf16le_encode_units s).length * 2 := by
  unfold py_utf16le_encode
  exact utf16_bytes_len (utf16le_encode_units s)

/-- Unit encoding of a basic-plane scalar at the head. -/
theorem enc_units_cons_bmp (c : Nat) (cs : List Nat) (h : c < 65536) :
    utf16le_encode_units (c :: cs) = c :: utf16le_encode_units cs := by
  simp [utf16le_encode_units, h]

/-- Unit encoding of a supplementary scalar at the head. -/
theorem enc_units_cons_sup (c : Nat) (cs : List Nat) (h : ¬ c < 65536) :
    utf16le_encode_units (c :: cs) =
      (55296 + (c - 65536) / 1024) :: (56320 + (c - 65536) % 1024) ::
        utf16le_encode_units cs := by
  simp [utf16le_encode_units, h]

/-- Combining steps over a unit that is not a surrogate. -/
theorem combine_cons_bmp (c : Nat) (X : List Nat)
    (h1 : ¬(55296 ≤ c ∧ c < 56320)) (h2 : ¬(56320 ≤ c ∧ c < 57344)) :
    combine_surrogates (c :: X) =
      (combine_surrogates X).map fun r => c :: r := by
  cases X with
  | nil => simp [combine_surrogates, h1, h2]
  | cons y ys => simp [combine_surrogates, h1, h2]

/-- Combining merges a high/low surrogate pair. -/
theorem combine_cons_pair (u l : Nat) (X : List Nat)
    (hu : 55296 ≤ u ∧ u < 56320) (hl : 56320 ≤ l ∧ l < 57344) :
    combine_surrogates (u :: l :: X) =
      (combine_surrogates X).map fun r =>
        (65536 + (u - 55296) * 1024 + (l - 56320)) :: r := by
  cases X with
  | nil => simp [combine_surrogates, hu, hl]
  | cons y ys => simp [combine_surrogates, hu, hl]

/-- Combining the encoded units of a valid string recovers the string. -/
theorem combine_encode (s : List Nat) (hv : valid_scalars s) :
    combine_surrogates (utf16le_encode_units s) = some s := by
  induction s with
  | nil => rfl
  | cons c cs ih =>
    have hc := hv c (List.mem_cons_self c cs)
    have hcs : valid_scalars cs := fun x hx => hv x (List.mem_cons_of_mem c hx)
    by_cases hb : c < 65536
    · have h1 : ¬(55296 ≤ c ∧ c < 56320) := by omega
      have h2 : ¬(56320 ≤ c ∧ c < 57344) := by omega
      rw [enc_units_cons_bmp c cs hb, combine_cons_bmp c _ h1 h2, ih hcs]
      rfl
    · have hu : 55296 ≤ 55296 + (c - 65536) / 1024 ∧
          55296 + (c - 65536) / 1024 < 56320 := by omega
      have hl : 56320 ≤ 56320 + (c - 65536) % 1024 ∧
          56320 + (c - 65536) % 1024 < 57344 := by omega
      rw [enc_units_cons_sup c cs hb, combine_cons_pair _ _ _ hu hl, ih hcs]
      have harith : 65536 + (c - 65536) / 1024 * 1024 + (c - 65536) % 1024 = c := by
        omega
      simp [harith]

/-- Decoding the UTF-16LE encoding of a valid string recovers the string,
provided the string does not begin with U+FEFF or U+FFFE (whose encodings
collide with the byte-order marks the decoder strips). -/
theorem utf16_round_trip (s : List Nat) (hv : valid_scalars s)
    (hh1 : s.head? ≠ some 65279) (hh2 : s.head? ≠ some 65534) :
    py_utf16_decode (py_utf16le_encode s) = some s := by
  cases s with
  | nil => rfl
  | cons c cs =>
    have hc := hv c (List.mem_cons_self c cs)
    obtain ⟨u, us, hunits, hu1, hu2⟩ :
        ∃ u us, utf16le_encode_units (c :: cs) = u :: us ∧
          u ≠ 65279 ∧ u ≠ 65534 := by
      by_cases hb : c < 65536
      · refine ⟨c, utf16le_encode_units cs, enc_units_cons_bmp c cs hb, ?_, ?_⟩
        · intro hEq; exact hh1 (by simp [hEq])
        · intro hEq; exact hh2 (by simp [hEq])
      · exact ⟨55296 + (c - 65536) / 1024,
          (56320 + (c - 65536) % 1024) :: utf16le_encode_units cs,
          enc_units_cons_sup c cs hb, by omega, by omega⟩
    have hbytes : py_utf16le_encode (c :: cs) =
        u % 256 :: u / 256 :: units_to_bytes_le us := by
      unfold py_utf16le_encode
      rw [hunits]
      rfl
    rw [hbytes]
    have hn1 : ¬(u % 256 = 255 ∧ u / 256 = 254) := by omega
    have hn2 : ¬(u % 256 = 254 ∧ u / 256 = 255) := by omega
    show (if u % 256 = 255 ∧ u / 256 = 254 then
        (utf16_units_le (units_to_bytes_le us)).bind combine_surrogates
      else if u % 256 = 254 ∧ u / 256 = 255 then
        (utf16_units_be (units_to_bytes_le us)).bind combine_surrogates
      else (utf16_units_le (u % 256 :: u / 256 :: units_to_bytes_le us)).bind
        combine_surrogates) = some (c :: cs)
    rw [if_neg hn1, if_neg hn2]
    have hun : utf16_units_le (u % 256 :: u / 256 :: units_to_bytes_le us) =
        some (u :: us) := utf16_units_of_bytes (u :: us)
    rw [hun]
    show combine_surrogates (u :: us) = some (c :: cs)
    rw [← hunits]
    exact combine_encode (c :: cs) hv

/-- `Patch.update_patch_urls` on any byte list laid out per the wire format
with correct length bytes: the result is determined by the two text
decodes, assigning `patch_url` first. -/
theorem update_patch_urls_layout (unk : Nat) (blank : List Nat)
    (hb : blank.length = 33) (n1 : Nat) (t1 : List Nat)
    (h1 : t1.length = n1 * 2) (b2 n2 : Nat) (t2 : List Nat)
    (h2 : t2.length = n2 * 2) :
    update_patch_urls (unk :: (blank ++ (n1 :: (t1 ++ (b2 :: (n2 :: t2)))))) =
      match py_utf16_decode t1 with
      | none => ParseResult.err PyParseErr.unicodeDecodeError {}
      | some u1 =>
        match py_utf16_decode t2 with
        | none =>
          ParseResult.err PyParseErr.unicodeDecodeError { patch_url := some u1 }
        | some u2 =>
          ParseResult.ok { patch_url := some u1, patch_cdn_url := some u2 } := by
  simp only [update_patch_urls, bio_read, List.take_succ_cons, List.take_zero,
    List.drop_succ_cons, List.drop_zero]
  rw [pw_take_eq 33 blank _ hb, pw_drop_eq 33 blank _ hb]
  simp only [struct_unpack_B, struct_unpack_33s, hb, if_pos, List.take_succ_cons,
    List.take_zero, List.drop_succ_cons, List.drop_zero]
  rw [pw_take_eq (n1 * 2) t1 _ h1, pw_drop_eq (n1 * 2) t1 _ h1]
  cases hd1 : py_utf16_decode t1 with
  | none => rfl
  | some u1 =>
    simp only [struct_unpack_B, List.take_succ_cons, List.take_zero,
      List.drop_succ_cons, List.drop_zero]
    rw [show t2.take (n2 * 2) = t2 by rw [← h2]; exact List.take_length t2]

/-- C1, counterexample: a 41-byte handshake response declaring `len1 = 1`
and `len2 = 2` — so shorter than `36 + len1*2 + len2*2 = 42` bytes, the
second text field truncated by two bytes — is not rejected:
`Patch.update_patch_urls` succeeds, with `patch_cdn_url` silently set to
the one-unit string `[98]` instead of the declared two units.  The claim
says every such short response fails the handshake. -/
theorem C1_counterexample :
    update_patch_urls (0 :: (List.replicate 33 0 ++ [1, 97, 0, 0, 2, 98, 0])) =
      ParseResult.ok { patch_url := some [97], patch_cdn_url := some [98] } ∧
    (0 :: (List.replicate 33 0 ++ [1, 97, 0, 0, 2, 98, 0])).length = 41 ∧
    41 < 36 + 1 * 2 + 2 * 2 := by
  decide

/-- C1, amended: a handshake response shorter than 35 bytes — too short for
the fixed 1-byte, 33-byte and `len1` reads — fails with `struct.error` and
with neither `patch_url` nor `patch_cdn_url` assigned; longer truncated
responses are not reliably rejected, and a failure after the first URL is
decoded leaves `patch_url` assigned without `patch_cdn_url`, as the second
conjunct shows on a 37-byte response. -/
theorem C1_theorem :
    (∀ resp : List Nat, resp.length < 35 →
      update_patch_urls resp = ParseResult.err PyParseErr.structError {}) ∧
    update_patch_urls (0 :: (List.replicate 33 0 ++ [1, 97, 0])) =
      ParseResult.err PyParseErr.structError { patch_url := some [97] } := by
  constructor
  · intro resp h
    cases resp with
    | nil => rfl
    | cons a rest =>
      simp only [update_patch_urls, bio_read, List.take_succ_cons,
        List.take_zero, List.drop_succ_cons, List.drop_zero, struct_unpack_B]
      have hr : rest.length < 34 := by
        simp [List.length_cons] at h
        omega
      by_cases h33 : rest.length = 33
      · have htk : rest.take 33 = rest := List.take_of_length_le (by omega)
        have hdr : rest.drop 33 = [] := List.drop_eq_nil_of_le (by omega)
        simp [struct_unpack_33s, htk, h33, hdr, struct_unpack_B]
      · have hlen : (rest.take 33).length = rest.length := by
          rw [List.length_take]
          omega
        simp [struct_unpack_33s, hlen, h33]
  · decide

/-- C1 witness: the 34-byte all-zero response is rejected with no partial
state. -/
theorem C1_witness :
    update_patch_urls (List.replicate 34 0) =
      ParseResult.err PyParseErr.structError {} :=
  C1_theorem.1 (List.replicate 34 0) (by decide)

/-- C5, counterexample: the well-formed response encoding the original
strings `[65279, 97]` (U+FEFF then `a`) and `[]` parses, but `patch_url`
comes back as `[97]`: the decoder consumed the leading two bytes `255, 254`
of the first payload as a byte-order mark.  The claim says the parse
returns exactly the original encoded strings for every well-formed
response. -/
theorem C5_counterexample :
    buildResp 0 (List.replicate 33 0) 0 [65279, 97] [] =
      0 :: (List.replicate 33 0 ++ [2, 255, 254, 97, 0, 0, 0]) ∧
    update_patch_urls (buildResp 0 (List.replicate 33 0) 0 [65279, 97] []) =
      ParseResult.ok { patch_url := some [97], patch_cdn_url := some [] } ∧
    ([97] : List Nat) ≠ [65279, 97] := by
  decide

/-- C5, amended: for every well-formed handshake response carrying two
UTF-16LE-encoded valid Unicode strings whose first characters are neither
U+FEFF nor U+FFFE, with correct one-byte unit counts (each at most 255) and
total size at most the 1024-byte receive bound, `Patch.update_patch_urls`
succeeds and sets `patch_url` and `patch_cdn_url` to exactly the two
original strings. -/
theorem C5_theorem (unk : Nat) (blank : List Nat) (b2 : Nat)
    (s1 s2 : List Nat) (hb : blank.length = 33)
    (hv1 : valid_scalars s1) (hv2 : valid_scalars s2)
    (hh1 : s1.head? ≠ some 65279) (hh1b : s1.head? ≠ some 65534)
    (hh2 : s2.head? ≠ some 65279) (hh2b : s2.head? ≠ some 65534)
    (_hl1 : (utf16le_encode_units s1).length ≤ 255)
    (_hl2 : (utf16le_encode_units s2).length ≤ 255)
    (_hsz : (buildResp unk blank b2 s1 s2).length ≤ 1024) :
    update_patch_urls (buildResp unk blank b2 s1 s2) =
      ParseResult.ok { patch_url := some s1, patch_cdn_url := some s2 } := by
  unfold buildResp
  rw [update_patch_urls_layout unk blank hb _ _ (py_utf16le_encode_len s1)
    b2 _ _ (py_utf16le_encode_len s2),
    utf16_round_trip s1 hv1 hh1 hh1b, utf16_round_trip s2 hv2 hh2 hh2b]

/-- C5 witness: the response encoding `[97]` and `[98]` round-trips. -/
theorem C5_witness :
    update_patch_urls (buildResp 0 (List.replicate 33 0) 0 [97] [98]) =
      ParseResult.ok { patch_url := some [97], patch_cdn_url := some [98] } :=
  C5_theorem 0 (List.replicate 33 0) 0 [97] [98] (by decide) (by decide)
    (by decide) (by decide) (by decide) (by decide) (by decide) (by decide)
    (by decide) (by decide)

/-- C9: the download operations never touch the session's handshake
connection or discovery state: for every call, `Patch.download_raw` and
`Patch.download` leave `patch_url`, `patch_cdn_url`, `sock_fd` and the
master address unchanged, and their outcome is invariant under any change
of `sock_fd` and the master address — the embedding of the download path
performs no socket operation at all, faithfully to a source body that
contains none. -/
theorem C9_theorem :
    ∀ (s : PatchState) (fp : List Nat) (env : List Nat → HttpOutcome)
      (dd df : Option (List Nat)) (fs : Fs) (fd : Nat) (ms : List Nat × Nat),
    (download_raw_st s fp env).2 = s ∧
    (download_st s fp dd df fs env).2 = s ∧
    (download_raw_st { s with sock_fd := fd, master_server := ms } fp env).1 =
      (download_raw_st s fp env).1 ∧
    (download_st { s with sock_fd := fd, master_server := ms } fp dd df fs env).1 =
      (download_st s fp dd df fs env).1 :=
  fun _ _ _ _ _ _ _ _ => ⟨rfl, rfl, rfl, rfl⟩
